import Mathlib

/-!
Verification of the risk and execution-sizing core of the repository
(files src/risk.py, src/execution.py, src/microstructure.py).

Conventions of the shallow embedding:
- Python floats are modelled as rationals (ℚ).  IEEE NaN / infinity are not
  representable in ℚ; wherever the source produces NaN (an undefined spread,
  an empty-mean, a one-sample standard deviation) the embedding returns
  Option.none, and float values that may be NaN are modelled as Option ℚ.
  Histories containing a zero close price (which would divide by zero in the
  source and produce IEEE infinities) are outside the fidelity of the model;
  the ℚ convention x / 0 = 0 applies there.
- Python int() truncates toward zero; python_int below models it.
- The volatility estimator of risk.py ends with
  ann_vol = daily_vol * sqrt(annualization) where daily_vol = sqrt(daily_var).
  The square root is irrational, so the embedding tracks the SQUARE of the
  annualized volatility, ann_var = annualization * daily_var, which determines
  ann_vol (both are nonnegative and squaring is injective on nonnegatives).
  All guards of the source commute with this squaring: daily_vol <= 0 iff
  daily_var <= 0, and daily_vol is NaN exactly when the embedding signals
  Option.none.
-/

/-- Truncation toward zero, the semantics of Python int() applied to a float. -/
def python_int (q : ℚ) : ℤ :=
  if q < 0 then ⌈q⌉ else ⌊q⌋

/-! ## src/risk.py : VolatilityTargetSizer -/

/-- Square of the annualized volatility estimated by
VolatilityTargetSizer._estimate_ann_vol (src/risk.py lines 39-69).
The source returns None when n <= lookback; otherwise it collects the closes
at backtrader indices -lookback+1 .. 0, i.e. the last lookback closes of the
chronological history, computes rets = np.diff(closes) / closes[:-1], returns
None when rets is empty, takes daily_vol = np.nanstd(rets, ddof=1) (NaN when
rets has a single element, hence None through the isnan guard), returns None
when daily_vol <= 0 or NaN, and finally multiplies by sqrt(annualization).
Here the result is the square of that value: annualization * daily variance. -/
def estimate_ann_var (lookback : ℕ) (annualization : ℚ) (hist : List ℚ) : Option ℚ :=
  if hist.length ≤ lookback then none
  else
    let closes := hist.drop (hist.length - lookback)
    let rets := List.zipWith (fun cprev ccur => (ccur - cprev) / cprev) closes closes.tail
    if rets.length = 0 then none
    else if rets.length = 1 then none
    else
      let m := rets.sum / (rets.length : ℚ)
      let daily_var := (rets.map (fun r => (r - m) ^ 2)).sum / ((rets.length : ℚ) - 1)
      if daily_var ≤ 0 then none
      else some (annualization * daily_var)

/-- Square of the annualized volatility described by the claim wording:
lookback simple returns taken from the last lookback+1 closes, sample
standard deviation with Bessel divisor lookback-1, annualized.  This
definition follows the SPEC sentence (not the source) and exists only to be
compared against estimate_ann_var. -/
def estimate_ann_var_claimed (lookback : ℕ) (annualization : ℚ) (hist : List ℚ) : Option ℚ :=
  if hist.length < lookback + 1 then none
  else
    let closes := hist.drop (hist.length - (lookback + 1))
    let rets := List.zipWith (fun cprev ccur => (ccur - cprev) / cprev) closes closes.tail
    let m := rets.sum / (lookback : ℚ)
    let daily_var := (rets.map (fun r => (r - m) ^ 2)).sum / ((lookback : ℚ) - 1)
    some (annualization * daily_var)

/-- Configuration parameters of VolatilityTargetSizer used by _getsizing
(src/risk.py params tuple): target_vol, max_leverage, contract_size, min_size. -/
structure SizerParams where
  target_vol : ℚ
  max_leverage : ℚ
  contract_size : ℚ
  min_size : ℤ
deriving DecidableEq

/-- Step 2 of the sizing algorithm (src/risk.py lines 88-89):
exposure = max(0.0, min(max_leverage, target_vol / ann_vol)). -/
def exposure_of (target_vol max_leverage ann_vol : ℚ) : ℚ :=
  max 0 (min max_leverage (target_vol / ann_vol))

/-- VolatilityTargetSizer._getsizing (src/risk.py lines 74-104), with the
price, the broker equity and the estimated annualized volatility passed as
arguments (the source reads them from data.close[0], broker.getvalue() and
_estimate_ann_vol).  ann_vol = none models the None ("insufficient") marker;
a NaN ann_vol is not representable in ℚ (the estimator never returns NaN). -/
def getsizing (p : SizerParams) (price equity : ℚ) (ann_vol : Option ℚ) : ℤ :=
  if price ≤ 0 then 0
  else
    match ann_vol with
    | none => 0
    | some v =>
      if v ≤ 0 then 0
      else
        let exposure := exposure_of p.target_vol p.max_leverage v
        let target_notional := equity * exposure
        let contract_notional := price * p.contract_size
        if contract_notional ≤ 0 then 0
        else
          let size := python_int (target_notional / contract_notional)
          if size < p.min_size then 0 else size

/-! ## src/execution.py : spread estimator and execution calibration -/

/-- One bar of the High/Low columns consumed by execution.py. -/
structure BarHL where
  high : ℚ
  low : ℚ
deriving DecidableEq

/-- Per-bar body of estimate_highlow_spread (src/execution.py lines 27-49):
spread = (H - L) / ((H + L) / 2), with infinities replaced by NaN.  The
result is NaN or infinite exactly when the average price (H + L) / 2 is zero,
so the embedding returns none exactly there. -/
def spread_bar (h l : ℚ) : Option ℚ :=
  if (h + l) / 2 = 0 then none else some ((h - l) / ((h + l) / 2))

/-- estimate_highlow_spread applied to a whole bar series: one entry per bar,
none at the positions where the spread is undefined (NaN). -/
def estimate_highlow_spread (bars : List BarHL) : List (Option ℚ) :=
  bars.map (fun b => spread_bar b.high b.low)

/-- ExecutionParams (src/execution.py lines 11-24).  The three derived fields
are floats that can be NaN in the source (when no valid spread sample
exists), hence Option ℚ here; commission_perc is the caller-supplied float. -/
structure ExecutionParams where
  mean_spread_pct : Option ℚ
  half_spread_pct : Option ℚ
  slippage_perc : Option ℚ
  commission_perc : ℚ
deriving DecidableEq

/-- calibrate_execution_params (src/execution.py lines 52-79):
mean of the defined spread entries (NaN, i.e. none, when no entry remains
after dropna), half_spread = mean / 2, slippage = half_spread *
slippage_multiplier (NaN propagates through both products), commission
passed through unchanged.  The source never raises. -/
def calibrate_execution_params (bars : List BarHL)
    (commission_perc slippage_multiplier : ℚ) : ExecutionParams :=
  let spreads := (estimate_highlow_spread bars).filterMap id
  let mean_spread : Option ℚ :=
    if spreads.length = 0 then none else some (spreads.sum / (spreads.length : ℚ))
  let half_spread := mean_spread.map (fun x => x / 2)
  let slippage := half_spread.map (fun x => x * slippage_multiplier)
  { mean_spread_pct := mean_spread
    half_spread_pct := half_spread
    slippage_perc := slippage
    commission_perc := commission_perc }

/-! ## src/microstructure.py : MicrostructureStrategy gate state -/

/-- notify_trade (src/microstructure.py lines 47-49): the counter
_bars_since_trade is set to 0 when the trade is closed and left unchanged
otherwise.  The counter is the only mutable gate state of the class. -/
def notify_trade (isclosed : Bool) (bars_since_trade : ℤ) : ℤ :=
  if isclosed then 0 else bars_since_trade

/-- next (src/microstructure.py lines 51-52): every processed bar increments
the counter by exactly 1. -/
def next_bar (bars_since_trade : ℤ) : ℤ :=
  bars_since_trade + 1

/-- _holding_period_ok (src/microstructure.py lines 64-68):
true iff _bars_since_trade >= min_holding_period. -/
def holding_period_ok (min_holding_period bars_since_trade : ℤ) : Bool :=
  decide (min_holding_period ≤ bars_since_trade)

/-- _liquidity_ok (src/microstructure.py lines 54-62): false when the 20-bar
average volume is zero, otherwise volume / average >= min_volume_pct_avg. -/
def liquidity_ok (min_volume_pct_avg volume vol_ma : ℚ) : Bool :=
  if vol_ma = 0 then false
  else decide (min_volume_pct_avg ≤ volume / vol_ma)

/-! ## Helper lemmas -/

theorem next_bar_iterate (n : ℕ) (s : ℤ) : next_bar^[n] s = s + n := by
  induction n with
  | zero => simp
  | succ k ih =>
    rw [Function.iterate_succ_apply', ih]
    unfold next_bar
    push_cast
    ring

theorem python_int_of_nonneg (q : ℚ) (h : 0 ≤ q) : python_int q = ⌊q⌋ := by
  unfold python_int
  rw [if_neg (not_lt.2 h)]

theorem python_int_nonneg (q : ℚ) (h : 0 ≤ q) : 0 ≤ python_int q := by
  rw [python_int_of_nonneg q h]
  exact Int.floor_nonneg.2 h

theorem python_int_nonpos (q : ℚ) (h : q ≤ 0) : python_int q ≤ 0 := by
  unfold python_int
  split
  · exact Int.ceil_le.2 (by exact_mod_cast h)
  · exact Int.floor_nonpos h

theorem python_int_mono_of_nonneg (a b : ℚ) (ha : 0 ≤ a) (hab : a ≤ b) :
    python_int a ≤ python_int b := by
  rw [python_int_of_nonneg a ha, python_int_of_nonneg b (ha.trans hab)]
  exact Int.floor_le_floor hab

theorem exposure_of_nonneg (t L v : ℚ) : 0 ≤ exposure_of t L v :=
  le_max_left 0 _

theorem exposure_of_le_cap (t L v : ℚ) (hL : 0 ≤ L) : exposure_of t L v ≤ L :=
  max_le hL (min_le_left L _)

theorem exposure_of_antitone (t L v1 v2 : ℚ) (h1 : 0 < v1) (h12 : v1 ≤ v2) :
    exposure_of t L v2 ≤ exposure_of t L v1 := by
  unfold exposure_of
  rcases le_or_lt 0 t with ht | ht
  · have h2 : 0 < v2 := lt_of_lt_of_le h1 h12
    have hdiv : t / v2 ≤ t / v1 := by gcongr
    exact max_le_max le_rfl (min_le_min le_rfl hdiv)
  · have hn1 : t / v1 < 0 := div_neg_of_neg_of_pos ht h1
    have hn2 : t / v2 < 0 := div_neg_of_neg_of_pos ht (lt_of_lt_of_le h1 h12)
    rw [max_eq_left (le_of_lt (lt_of_le_of_lt (min_le_right L _) hn2)),
        max_eq_left (le_of_lt (lt_of_le_of_lt (min_le_right L _) hn1))]

theorem min_size_cut_mono (m s1 s2 : ℤ) (h0 : 0 ≤ s2) (h : s2 ≤ s1) :
    (if s2 < m then 0 else s2) ≤ (if s1 < m then 0 else s1) := by
  split <;> split <;> omega

theorem min_size_cut_zero (m s : ℤ) (hm : 0 ≤ m) (hs : s ≤ 0) :
    (if s < m then 0 else s) = 0 := by
  split <;> omega

theorem getsizing_some (p : SizerParams) (price equity v : ℚ)
    (hp : ¬ price ≤ 0) (hv : ¬ v ≤ 0) :
    getsizing p price equity (some v) =
      (if price * p.contract_size ≤ 0 then 0
       else
         if python_int (equity * exposure_of p.target_vol p.max_leverage v
             / (price * p.contract_size)) < p.min_size then 0
         else python_int (equity * exposure_of p.target_vol p.max_leverage v
             / (price * p.contract_size))) := by
  simp [getsizing, hp, hv]

theorem rets_eq_range_map (l : List ℚ) :
    List.zipWith (fun cprev ccur => (ccur - cprev) / cprev) l l.tail
      = (List.range (l.length - 1)).map
          (fun i => (l.getD (i + 1) 0 - l.getD i 0) / l.getD i 0) := by
  apply List.ext_getElem
  · simp
  · intro i h1 h2
    have hlen : i + 1 < l.length := by
      simp [List.length_zipWith] at h1
      omega
    have hi : i < l.length := by omega
    simp only [List.getElem_zipWith, List.getElem_map, List.getElem_range,
      List.getElem_tail]
    rw [List.getD_eq_getElem _ _ hi, List.getD_eq_getElem _ _ hlen]

/-! ## Claims about src/microstructure.py -/

/-- C7: the bars-since-last-exit counter is reset to 0 by a closed-trade
notification and incremented by exactly 1 on every processed bar; with
min_holding_period = 3, holding_period_ok is false immediately after the
reset and becomes true exactly after 3 subsequent bar advances. -/
theorem C7_holding_period_state_machine :
    (∀ s : ℤ, next_bar s = s + 1) ∧
    (∀ s : ℤ, notify_trade true s = 0) ∧
    (∀ s : ℤ, holding_period_ok 3 (notify_trade true s) = false) ∧
    (∀ (s : ℤ) (n : ℕ),
      (holding_period_ok 3 (next_bar^[n] (notify_trade true s)) = true) ↔ 3 ≤ n) := by
  refine ⟨fun s => rfl, fun s => rfl,
    fun s => by simp [notify_trade, holding_period_ok], fun s n => ?_⟩
  rw [show notify_trade true s = 0 from rfl, next_bar_iterate]
  simp only [holding_period_ok, zero_add, decide_eq_true_eq]
  omega

/-- C8: liquidity_ok is false on zero average volume, otherwise true exactly
when volume / average reaches min_volume_pct_avg, with an inclusive boundary
at 30 percent of a 100 average. -/
theorem C8_liquidity_ok_spec :
    (∀ m v : ℚ, liquidity_ok m v 0 = false) ∧
    (∀ m v a : ℚ, a ≠ 0 → (liquidity_ok m v a = true ↔ m ≤ v / a)) ∧
    liquidity_ok (3/10) 29 100 = false ∧
    liquidity_ok (3/10) 30 100 = true := by
  refine ⟨fun m v => by simp [liquidity_ok],
    fun m v a ha => by simp [liquidity_ok, ha], ?_, ?_⟩
  · norm_num [liquidity_ok]
  · norm_num [liquidity_ok]

/-- Witness for C8 at the concrete boundary input. -/
theorem C8_liquidity_ok_spec_witness :
    liquidity_ok (3/10) 30 100 = true ↔ (3/10 : ℚ) ≤ 30 / 100 :=
  C8_liquidity_ok_spec.2.1 (3/10) 30 100 (by norm_num)

/-- C10: a trade notification for a trade that is not closed leaves the
counter (the only mutable gate state of the class) unchanged. -/
theorem C10_notify_trade_open_trade_noop : ∀ s : ℤ, notify_trade false s = s :=
  fun _ => rfl

/-! ## Claims about src/execution.py -/

/-- C2 counterexample: on a bar series whose every spread is undefined the
source does not raise any exception; it returns a normal ExecutionParams
whose derived fields are NaN (modelled as none).  No InsufficientDataError
exists anywhere in the repository. -/
theorem C2_counterexample :
    calibrate_execution_params [⟨0, 0⟩] 0 (1/2) =
      { mean_spread_pct := none, half_spread_pct := none,
        slippage_perc := none, commission_perc := 0 } := by
  norm_num [calibrate_execution_params, estimate_highlow_spread, spread_bar]

/-- C2 amended: when zero valid spread entries remain after dropping the
undefined ones, calibrate_execution_params returns (rather than raising)
an ExecutionParams with NaN mean, half-spread and slippage and the
commission passed through. -/
theorem C2_amended_no_valid_spreads (bars : List BarHL) (c m : ℚ)
    (h : (estimate_highlow_spread bars).filterMap id = []) :
    calibrate_execution_params bars c m =
      { mean_spread_pct := none, half_spread_pct := none,
        slippage_perc := none, commission_perc := c } := by
  simp [calibrate_execution_params, h]

/-- Witness for the amended C2 on a concrete all-undefined bar series. -/
theorem C2_amended_no_valid_spreads_witness :
    calibrate_execution_params [⟨0, 0⟩] 1 (1/2) =
      { mean_spread_pct := none, half_spread_pct := none,
        slippage_perc := none, commission_perc := 1 } :=
  C2_amended_no_valid_spreads [⟨0, 0⟩] 1 (1/2)
    (by norm_num [estimate_highlow_spread, spread_bar])

/-- C3 counterexample: at H = 1, L = 0 (which satisfies H at least L at
least 0 and H + L positive) the spread equals 2, so the strict bound
spread below 2 claimed by the spec fails. -/
theorem C3_counterexample :
    spread_bar 1 0 = some 2 ∧ ¬ ((2 : ℚ) < 2) := by
  constructor
  · norm_num [spread_bar]
  · norm_num

/-- C3 amended: for H at least L at least 0 with positive H + L the spread
satisfies 0 at most spread at most 2 (equality 2 occurs at L = 0) and is
zero exactly when H = L; when H + L = 0 the spread is undefined (none). -/
theorem C3_amended_spread_bounds (h l : ℚ) (h0 : 0 ≤ l) (hlh : l ≤ h) :
    (h + l = 0 → spread_bar h l = none) ∧
    (0 < h + l →
      spread_bar h l = some ((h - l) / ((h + l) / 2)) ∧
      0 ≤ (h - l) / ((h + l) / 2) ∧
      (h - l) / ((h + l) / 2) ≤ 2 ∧
      ((h - l) / ((h + l) / 2) = 0 ↔ h = l)) := by
  constructor
  · intro hz
    simp [spread_bar, hz]
  · intro hpos
    have hd : (0 : ℚ) < (h + l) / 2 := by positivity
    have hdne : ((h + l) / 2) ≠ 0 := ne_of_gt hd
    refine ⟨by simp [spread_bar, hdne], ?_, ?_, ?_⟩
    · exact div_nonneg (by linarith) (le_of_lt hd)
    · rw [div_le_iff₀ hd]
      linarith
    · rw [div_eq_zero_iff]
      simp [hdne, sub_eq_zero]

/-- Witness for the amended C3 at H = 3, L = 1. -/
theorem C3_amended_spread_bounds_witness :
    spread_bar 3 1 = some ((3 - 1 : ℚ) / ((3 + 1) / 2)) :=
  ((C3_amended_spread_bounds 3 1 (by norm_num) (by norm_num)).2 (by norm_num)).1

/-! ## Claims about src/risk.py -/

/-- C6: every guard of the sizer resolves to size 0 instead of failing:
nonpositive price, missing (insufficient) volatility, or nonpositive
volatility.  A NaN volatility is not representable in the rational model;
the estimator itself never returns NaN (it returns none in that case). -/
theorem C6_sizer_guards_zero (p : SizerParams) (price equity : ℚ) (av : Option ℚ)
    (h : price ≤ 0 ∨ av = none ∨ ∃ v, av = some v ∧ v ≤ 0) :
    getsizing p price equity av = 0 := by
  rcases h with hp | hn | ⟨v, hv, hv0⟩
  · simp [getsizing, hp]
  · subst hn
    simp [getsizing]
  · subst hv
    simp [getsizing, hv0]

/-- Witness for C6 on the insufficient-data marker. -/
theorem C6_sizer_guards_zero_witness :
    getsizing ⟨1/10, 2, 50, 1⟩ 100 100000 none = 0 :=
  C6_sizer_guards_zero ⟨1/10, 2, 50, 1⟩ 100 100000 none (Or.inr (Or.inl rfl))

/-- C9: calibration is deterministic (the embedding is a pure function of
the bar series and the two scalar arguments, as the source reads no other
state) and the derived fields satisfy half = mean / 2, slippage = half *
multiplier (NaN propagating), commission passed through. -/
theorem C9_calibration_idempotent :
    ∀ (bars : List BarHL) (c m : ℚ),
      calibrate_execution_params bars c m = calibrate_execution_params bars c m ∧
      (calibrate_execution_params bars c m).half_spread_pct
        = (calibrate_execution_params bars c m).mean_spread_pct.map (fun x => x / 2) ∧
      (calibrate_execution_params bars c m).slippage_perc
        = (calibrate_execution_params bars c m).half_spread_pct.map (fun x => x * m) ∧
      (calibrate_execution_params bars c m).commission_perc = c :=
  fun _ _ _ => ⟨rfl, rfl, rfl, rfl⟩

/-- C4 counterexample: with a negative min_size and negative equity the
returned size is not monotone in the volatility: at price 1, equity -100,
target_vol 1/10, max_leverage 2, contract_size 1, min_size -1000 the sizer
returns -100 at volatility 1/10 but -50 at the larger volatility 1/5. -/
theorem C4_counterexample :
    getsizing ⟨1/10, 2, 1, -1000⟩ 1 (-100) (some (1/10)) = -100 ∧
    getsizing ⟨1/10, 2, 1, -1000⟩ 1 (-100) (some (1/5)) = -50 ∧
    ¬ (getsizing ⟨1/10, 2, 1, -1000⟩ 1 (-100) (some (1/5))
        ≤ getsizing ⟨1/10, 2, 1, -1000⟩ 1 (-100) (some (1/10))) := by
  have hc1 : ⌈(-100 : ℚ)⌉ = (-100 : ℤ) := by
    rw [show ((-100 : ℚ)) = ((-100 : ℤ) : ℚ) by norm_num, Int.ceil_intCast]
  have hc2 : ⌈(-50 : ℚ)⌉ = (-50 : ℤ) := by
    rw [show ((-50 : ℚ)) = ((-50 : ℤ) : ℚ) by norm_num, Int.ceil_intCast]
  refine ⟨?_, ?_, ?_⟩
  · norm_num [getsizing, exposure_of, python_int, hc1]
  · norm_num [getsizing, exposure_of, python_int, hc2]
  · norm_num [getsizing, exposure_of, python_int, hc1, hc2]

/-- C4 amended: for fixed positive price and fixed other inputs the size is
monotonically non-increasing in the volatility, provided equity is
nonnegative or min_size is nonnegative (for negative equity together with a
negative min_size the truncated negative sizes break monotonicity). -/
theorem C4_amended_size_antitone (p : SizerParams) (price equity v1 v2 : ℚ)
    (hcase : 0 ≤ equity ∨ 0 ≤ p.min_size) (hp : 0 < price)
    (h1 : 0 < v1) (h12 : v1 ≤ v2) :
    getsizing p price equity (some v2) ≤ getsizing p price equity (some v1) := by
  have hp2 : ¬ price ≤ 0 := not_le.2 hp
  have hv1 : ¬ v1 ≤ 0 := not_le.2 h1
  have hv2 : ¬ v2 ≤ 0 := not_le.2 (lt_of_lt_of_le h1 h12)
  rw [getsizing_some p price equity v1 hp2 hv1,
      getsizing_some p price equity v2 hp2 hv2]
  rcases le_or_lt (price * p.contract_size) 0 with hcn | hcn
  · rw [if_pos hcn, if_pos hcn]
  · rw [if_neg (not_le.2 hcn), if_neg (not_le.2 hcn)]
    have he21 : exposure_of p.target_vol p.max_leverage v2
        ≤ exposure_of p.target_vol p.max_leverage v1 :=
      exposure_of_antitone _ _ _ _ h1 h12
    have he1nn := exposure_of_nonneg p.target_vol p.max_leverage v1
    have he2nn := exposure_of_nonneg p.target_vol p.max_leverage v2
    rcases le_or_lt 0 equity with heq | heq
    · have hx2 : 0 ≤ equity * exposure_of p.target_vol p.max_leverage v2
          / (price * p.contract_size) :=
        div_nonneg (mul_nonneg heq he2nn) hcn.le
      have hxle : equity * exposure_of p.target_vol p.max_leverage v2
            / (price * p.contract_size)
          ≤ equity * exposure_of p.target_vol p.max_leverage v1
            / (price * p.contract_size) := by
        gcongr
      exact min_size_cut_mono p.min_size _ _ (python_int_nonneg _ hx2)
        (python_int_mono_of_nonneg _ _ hx2 hxle)
    · have hms : 0 ≤ p.min_size := hcase.resolve_left (not_le.2 heq)
      have hx1 : equity * exposure_of p.target_vol p.max_leverage v1
          / (price * p.contract_size) ≤ 0 :=
        div_nonpos_of_nonpos_of_nonneg (mul_nonpos_of_nonpos_of_nonneg heq.le he1nn) hcn.le
      have hx2 : equity * exposure_of p.target_vol p.max_leverage v2
          / (price * p.contract_size) ≤ 0 :=
        div_nonpos_of_nonpos_of_nonneg (mul_nonpos_of_nonpos_of_nonneg heq.le he2nn) hcn.le
      rw [min_size_cut_zero p.min_size _ hms (python_int_nonpos _ hx1),
          min_size_cut_zero p.min_size _ hms (python_int_nonpos _ hx2)]

/-- Witness for the amended C4 at a concrete pair of volatilities. -/
theorem C4_amended_size_antitone_witness :
    getsizing ⟨1/10, 2, 1, 1⟩ 1 100 (some (1/5))
      ≤ getsizing ⟨1/10, 2, 1, 1⟩ 1 100 (some (1/10)) :=
  C4_amended_size_antitone ⟨1/10, 2, 1, 1⟩ 1 100 (1/10) (1/5)
    (Or.inl (by norm_num)) (by norm_num) (by norm_num) (by norm_num)

/-- C5 counterexample: with a negative leverage cap the clamp of step 2
produces exposure 0, which exceeds max_leverage = -1; correspondingly the
size 0 returned at positive equity, price and contract_size exceeds the
floor of equity * max_leverage / (price * contract_size) = -1. -/
theorem C5_counterexample :
    ¬ (exposure_of (1/10) (-1) 1 ≤ -1) ∧
    ¬ (getsizing ⟨1/10, -1, 1, 1⟩ 1 1 (some 1)
        ≤ ⌊(1 * (-1) / (1 * 1) : ℚ)⌋) := by
  constructor
  · norm_num [exposure_of]
  · norm_num [getsizing, exposure_of, python_int]

/-- C5 amended: for a nonnegative leverage cap the exposure of step 2 never
exceeds max_leverage for any positive volatility, and consequently the size
returned at positive equity, price and contract_size never exceeds the floor
of equity * max_leverage / (price * contract_size). -/
theorem C5_amended_leverage_cap (p : SizerParams) (price equity v : ℚ)
    (hL : 0 ≤ p.max_leverage) (hv : 0 < v) (hp : 0 < price)
    (he : 0 < equity) (hcs : 0 < p.contract_size) :
    exposure_of p.target_vol p.max_leverage v ≤ p.max_leverage ∧
    getsizing p price equity (some v)
      ≤ ⌊equity * p.max_leverage / (price * p.contract_size)⌋ := by
  refine ⟨exposure_of_le_cap _ _ _ hL, ?_⟩
  have hcn : 0 < price * p.contract_size := mul_pos hp hcs
  rw [getsizing_some p price equity v (not_le.2 hp) (not_le.2 hv),
      if_neg (not_le.2 hcn)]
  have he2nn := exposure_of_nonneg p.target_vol p.max_leverage v
  have hxnn : 0 ≤ equity * exposure_of p.target_vol p.max_leverage v
      / (price * p.contract_size) :=
    div_nonneg (mul_nonneg he.le he2nn) hcn.le
  have hba : equity * exposure_of p.target_vol p.max_leverage v
        / (price * p.contract_size)
      ≤ equity * p.max_leverage / (price * p.contract_size) := by
    gcongr
    exact exposure_of_le_cap _ _ _ hL
  have hsle : python_int (equity * exposure_of p.target_vol p.max_leverage v
      / (price * p.contract_size)) ≤ ⌊equity * p.max_leverage / (price * p.contract_size)⌋ := by
    rw [python_int_of_nonneg _ hxnn]
    exact Int.floor_le_floor hba
  have hbnn : (0 : ℤ) ≤ ⌊equity * p.max_leverage / (price * p.contract_size)⌋ :=
    Int.floor_nonneg.2 (div_nonneg (mul_nonneg he.le hL) hcn.le)
  split
  · exact hbnn
  · exact hsle

/-- Witness for the amended C5 with the golden-scenario parameters. -/
theorem C5_amended_leverage_cap_witness :
    exposure_of (1/10) 2 (1/10) ≤ 2 ∧
    getsizing ⟨1/10, 2, 5, 1⟩ 100 100000 (some (1/10))
      ≤ ⌊(100000 * 2 / (100 * 5) : ℚ)⌋ :=
  C5_amended_leverage_cap ⟨1/10, 2, 5, 1⟩ 100 100000 (1/10)
    (by norm_num) (by norm_num) (by norm_num) (by norm_num) (by norm_num)

/-- C1 counterexample: on the history [1, 2, 4, 12] with lookback 3 the
source windows only the last 3 closes [2, 4, 12], computing the 2 returns
[1, 2] and dividing their squared deviations by 1 (squared annualized value
252 * 1/2 = 126), while the claimed formula (3 returns from the last 4
prices, Bessel divisor 2) yields 252 * 1/3 = 84.  Both values are squares of
the respective annualized volatilities, which therefore differ as well. -/
theorem C1_counterexample :
    estimate_ann_var 3 252 [1, 2, 4, 12] = some 126 ∧
    estimate_ann_var_claimed 3 252 [1, 2, 4, 12] = some 84 ∧
    some (126 : ℚ) ≠ some (84 : ℚ) := by
  refine ⟨?_, ?_, by norm_num⟩
  · norm_num [estimate_ann_var]
  · norm_num [estimate_ann_var_claimed]

/-- C1 amended: with fewer than lookback + 1 closes in history the estimator
returns the insufficient marker none; with at least lookback + 1 closes and
lookback at least 3 it windows the LAST lookback closes (not lookback + 1),
computes the lookback - 1 simple returns over that window, takes their
sample variance with Bessel divisor lookback - 2 (not lookback - 1), guards
a nonpositive variance to none, and annualizes (here in squared form, by the
factor annualization). -/
theorem C1_amended_estimator (lookback : ℕ) (ann : ℚ) (hist : List ℚ) :
    (hist.length ≤ lookback → estimate_ann_var lookback ann hist = none) ∧
    (3 ≤ lookback → lookback < hist.length →
      estimate_ann_var lookback ann hist =
        (let w := hist.drop (hist.length - lookback)
         let r := (List.range (lookback - 1)).map
             (fun i => (w.getD (i + 1) 0 - w.getD i 0) / w.getD i 0)
         let m := r.sum / ((lookback : ℚ) - 1)
         let v := (r.map (fun x => (x - m) ^ 2)).sum / ((lookback : ℚ) - 2)
         if v ≤ 0 then none else some (ann * v))) := by
  constructor
  · intro h
    simp [estimate_ann_var, h]
  · intro h3 hlen
    have hwlen : (hist.drop (hist.length - lookback)).length = lookback := by
      rw [List.length_drop]
      omega
    simp only [estimate_ann_var, if_neg (not_le.2 hlen),
      rets_eq_range_map, hwlen, List.length_map, List.length_range]
    rw [if_neg (by omega : ¬ lookback - 1 = 0), if_neg (by omega : ¬ lookback - 1 = 1)]
    have hc1 : ((lookback - 1 : ℕ) : ℚ) = (lookback : ℚ) - 1 := by
      rw [Nat.cast_sub (by omega : 1 ≤ lookback), Nat.cast_one]
    have hc2 : ((lookback : ℚ) - 1) - 1 = (lookback : ℚ) - 2 := by
      ring
    rw [hc1, hc2]

/-- Witness for the amended C1: the insufficient branch at a 2-element
history with lookback 2, and the main branch evaluated on the concrete
counterexample history. -/
theorem C1_amended_estimator_witness :
    estimate_ann_var 2 252 [5, 7] = none ∧
    estimate_ann_var 3 252 [1, 2, 4, 12] = some 126 := by
  constructor
  · exact (C1_amended_estimator 2 252 [5, 7]).1 (by norm_num)
  · have h := (C1_amended_estimator 3 252 [1, 2, 4, 12]).2 (by norm_num) (by norm_num)
    rw [h]
    norm_num [List.range_succ]
